import Mathlib

/-!
Verification development for the schema migration engine of the Feedbacker
backend (`src/database/migrations.rs`).  The Rust source is shallowly embedded:
pure functions become Lean functions over `List Char` / `String`, the stateful
runner becomes explicit state passing over a small database model, and the
`i32` parenthesis-depth counter becomes an `Int` with explicit saturation.
-/

set_option autoImplicit false
set_option maxRecDepth 8192

namespace Feedbacker

/-! Section: Rust character/string primitives used by the migration engine -/

/-- Model of Rust `char::is_whitespace` (the Unicode `White_Space` property),
used by `str::trim` and `str::trim`-based emptiness checks. -/
def rust_is_whitespace (c : Char) : Bool :=
  let n := c.toNat
  if (9 ≤ n ∧ n ≤ 13) ∨ n = 32 ∨ n = 0x85 ∨ n = 0xA0 ∨ n = 0x1680 ∨
     (0x2000 ≤ n ∧ n ≤ 0x200A) ∨ n = 0x2028 ∨ n = 0x2029 ∨ n = 0x202F ∨
     n = 0x205F ∨ n = 0x3000
  then true else false

/-- Model of Rust `str::trim`: remove leading and trailing Unicode whitespace. -/
def rustTrim (cs : List Char) : List Char :=
  ((cs.dropWhile rust_is_whitespace).reverse.dropWhile rust_is_whitespace).reverse

/-! Section: The statement splitter (`split_sql_statements`, migrations.rs:123-157)

The Rust loop carries a statement accumulator `current : String`, the list of
emitted `statements`, an `in_dollar_quote : bool` flag and a
`paren_depth : i32`.  Each character is first pushed onto `current`; then the
flag toggles whenever `current` now ends with `"$$"`; then, outside dollar
quotes, `(` increments the depth, `)` decrements it with `i32::saturating_sub`
(which saturates at `i32::MIN`, not at zero), and `;` at depth zero emits the
accumulated text (semicolon included) and resets the accumulator. -/

structure SplitState where
  statements : List (List Char)
  current : List Char
  in_dollar_quote : Bool
  paren_depth : Int
  deriving Repr, DecidableEq

/-- Model of `paren_depth.saturating_sub(1)` on a Rust `i32`: saturation happens at
`i32::MIN = -2^31`, not at zero. -/
def i32SaturatingSub1 (d : Int) : Int :=
  max (d - 1) (-2147483648)

/-- The `in_dollar_quote` flag after one character: `current.ends_with("$$")`
holds for the post-push accumulator exactly when the pushed character is `'$'`
and the previous accumulator already ended with `'$'`. -/
def nextDollarQuote (s : SplitState) (ch : Char) : Bool :=
  if s.current.getLast? = some '$' ∧ ch = '$' then !s.in_dollar_quote
  else s.in_dollar_quote

/-- One iteration of the scanning loop of `split_sql_statements`. -/
def splitStep (s : SplitState) (ch : Char) : SplitState :=
  let cur := s.current ++ [ch]
  let dq := nextDollarQuote s ch
  if dq then ⟨s.statements, cur, dq, s.paren_depth⟩
  else if ch = '(' then ⟨s.statements, cur, dq, s.paren_depth + 1⟩
  else if ch = ')' then ⟨s.statements, cur, dq, i32SaturatingSub1 s.paren_depth⟩
  else if ch = ';' ∧ s.paren_depth = 0 then ⟨s.statements ++ [cur], [], dq, s.paren_depth⟩
  else ⟨s.statements, cur, dq, s.paren_depth⟩

/-- The scanner state at the start of `split_sql_statements`. -/
def initSplitState : SplitState := ⟨[], [], false, 0⟩

/-- Scanning a character sequence from a given state. -/
def splitFold (s : SplitState) (cs : List Char) : SplitState :=
  cs.foldl splitStep s

/-- Body of `split_sql_statements` at the character level: scan the whole text, then
push the leftover accumulator as a final statement unless it is
whitespace-only (`!current.trim().is_empty()`). -/
def splitChars (cs : List Char) : List (List Char) :=
  let s := splitFold initSplitState cs
  if rustTrim s.current = [] then s.statements else s.statements ++ [s.current]

/-- Embedding of `split_sql_statements` (migrations.rs:123-157). -/
def split_sql_statements (sql : String) : List String :=
  (splitChars sql.data).map (fun cs => String.mk cs)

/-! Section: Counting semicolons at depth zero (spec section 8, first property)

An independent scan that only tracks the parenthesis depth (with the same
`i32` saturating decrement the splitter uses) and counts semicolons seen at
depth zero.  It is meaningful for texts without dollar-quoting, where the
splitter's `in_dollar_quote` flag never becomes true. -/

structure CountState where
  depth : Int
  count : Nat
  deriving Repr, DecidableEq

def countStep (s : CountState) (ch : Char) : CountState :=
  if ch = '(' then ⟨s.depth + 1, s.count⟩
  else if ch = ')' then ⟨i32SaturatingSub1 s.depth, s.count⟩
  else if ch = ';' ∧ s.depth = 0 then ⟨s.depth, s.count + 1⟩
  else s

/-- Number of semicolons of the text occurring at parenthesis depth zero. -/
def countSemisDepthZero (cs : List Char) : Nat :=
  (cs.foldl countStep ⟨0, 0⟩).count

/-- Predicate `noDollarPair p cs` holds when no two adjacent characters of `cs` (also
counting a previous character `p`) are both `'$'`; such texts contain no
dollar-quoting, so the splitter's `in_dollar_quote` flag never toggles. -/
def noDollarPair : Option Char → List Char → Bool
  | _, [] => true
  | p, c :: cs => if p = some '$' ∧ c = '$' then false else noDollarPair (some c) cs

/-! Section: The checksum function (`calculate_checksum`, migrations.rs:115-120)

The Rust function feeds the UTF-8 bytes of the script to SHA-256 (the `sha2`
crate) and prints the 32-byte digest with the lowercase-hex formatter, two
digits per byte.  SHA-256 (FIPS 180-4) is embedded below over `Nat` with
explicit reduction modulo `2^32`. -/

/-- UTF-8 encoding of one Unicode scalar value (Rust `str::as_bytes`). -/
def utf8Bytes (c : Char) : List Nat :=
  let n := c.toNat
  if n < 0x80 then [n]
  else if n < 0x800 then [0xC0 + n / 64, 0x80 + n % 64]
  else if n < 0x10000 then [0xE0 + n / 4096, 0x80 + n / 64 % 64, 0x80 + n % 64]
  else [0xF0 + n / 262144, 0x80 + n / 4096 % 64, 0x80 + n / 64 % 64, 0x80 + n % 64]

/-- The UTF-8 byte sequence of a string. -/
def strBytes (s : String) : List Nat :=
  s.data.foldr (fun c acc => utf8Bytes c ++ acc) []

/-- Rotate a 32-bit word right by n bits. -/
def rotr32 (n x : Nat) : Nat :=
  ((x >>> n) ||| (x <<< (32 - n))) % 4294967296

/-- Bitwise complement of a 32-bit word. -/
def not32 (x : Nat) : Nat := x ^^^ 0xFFFFFFFF

/-- The SHA-256 round constants, as decimal values of K[0], K[1], ..., K[63]
(the fractional parts of the cube roots of the first 64 primes). -/
def sha256K : List Nat :=
  [1116352408, 1899447441, 3049323471, 3921009573, 961987163,
   1508970993, 2453635748, 2870763221, 3624381080, 310598401,
   607225278, 1426881987, 1925078388, 2162078206, 2614888103,
   3248222580, 3835390401, 4022224774, 264347078, 604807628,
   770255983, 1249150122, 1555081692, 1996064986, 2554220882,
   2821834349, 2952996808, 3210313671, 3336571891, 3584528711,
   113926993, 338241895, 666307205, 773529912, 1294757372,
   1396182291, 1695183700, 1986661051, 2177026350, 2456956037,
   2730485921, 2820302411, 3259730800, 3345764771, 3516065817,
   3600352804, 4094571909, 275423344, 430227734, 506948616,
   659060556, 883997877, 958139571, 1322822218, 1537002063,
   1747873779, 1955562222, 2024104815, 2227730452, 2361852424,
   2428436474, 2756734187, 3204031479, 3329325298]

/-- The state of the eight SHA-256 hash words (also used for the working
variables a..h of the compression loop). -/
structure Sha256H where
  h0 : Nat
  h1 : Nat
  h2 : Nat
  h3 : Nat
  h4 : Nat
  h5 : Nat
  h6 : Nat
  h7 : Nat
  deriving Repr, DecidableEq

/-- The SHA-256 initial hash value H(0). -/
def sha256Init : Sha256H :=
  ⟨1779033703, 3144134277, 1013904242, 2773480762,
   1359893119, 2600822924, 528734635, 1541459225⟩

/-- The message-schedule function sigma0 of FIPS 180-4. -/
def smallSigma0 (x : Nat) : Nat :=
  rotr32 7 x ^^^ rotr32 18 x ^^^ (x >>> 3)

/-- The message-schedule function sigma1 of FIPS 180-4. -/
def smallSigma1 (x : Nat) : Nat :=
  rotr32 17 x ^^^ rotr32 19 x ^^^ (x >>> 10)

/-- The next word of the message schedule, from the words computed so far. -/
def nextW (ws : List Nat) : Nat :=
  let t := ws.length
  (smallSigma1 (ws.getD (t - 2) 0) + ws.getD (t - 7) 0 + smallSigma0 (ws.getD (t - 15) 0) +
    ws.getD (t - 16) 0) % 4294967296

/-- Extend the 16-word block to the 64-word message schedule. -/
def extendW : Nat → List Nat → List Nat
  | 0, ws => ws
  | n + 1, ws => extendW n (ws ++ [nextW ws])

/-- One round of the SHA-256 compression loop. -/
def sha256Round (w : List Nat) (v : Sha256H) (t : Nat) : Sha256H :=
  let s1 := rotr32 6 v.h4 ^^^ rotr32 11 v.h4 ^^^ rotr32 25 v.h4
  let ch := (v.h4 &&& v.h5) ^^^ (not32 v.h4 &&& v.h6)
  let temp1 := (v.h7 + s1 + ch + sha256K.getD t 0 + w.getD t 0) % 4294967296
  let s0 := rotr32 2 v.h0 ^^^ rotr32 13 v.h0 ^^^ rotr32 22 v.h0
  let maj := (v.h0 &&& v.h1) ^^^ (v.h0 &&& v.h2) ^^^ (v.h1 &&& v.h2)
  let temp2 := (s0 + maj) % 4294967296
  ⟨(temp1 + temp2) % 4294967296, v.h0, v.h1, v.h2, (v.h3 + temp1) % 4294967296, v.h4, v.h5, v.h6⟩

/-- Compress one 16-word block into the running hash value. -/
def compressBlock (h : Sha256H) (block : List Nat) : Sha256H :=
  let w := extendW 48 block
  let v := (List.range 64).foldl (sha256Round w) h
  ⟨(h.h0 + v.h0) % 4294967296, (h.h1 + v.h1) % 4294967296,
   (h.h2 + v.h2) % 4294967296, (h.h3 + v.h3) % 4294967296,
   (h.h4 + v.h4) % 4294967296, (h.h5 + v.h5) % 4294967296,
   (h.h6 + v.h6) % 4294967296, (h.h7 + v.h7) % 4294967296⟩

/-- Big-endian 8-byte encoding of the message bit length. -/
def be64 (n : Nat) : List Nat :=
  [n >>> 56 % 256, n >>> 48 % 256, n >>> 40 % 256, n >>> 32 % 256,
   n >>> 24 % 256, n >>> 16 % 256, n >>> 8 % 256, n % 256]

/-- SHA-256 padding: append `0x80`, zero bytes up to 56 mod 64, then the
bit length as a big-endian 64-bit integer. -/
def padMsg (bytes : List Nat) : List Nat :=
  let len := bytes.length
  let k := (64 - (len + 9) % 64) % 64
  bytes ++ 0x80 :: List.replicate k 0 ++ be64 (8 * len)

/-- Big-endian 32-bit words from the padded byte sequence. -/
def bytesToWords : List Nat → List Nat
  | b0 :: b1 :: b2 :: b3 :: rest =>
      (b0 * 16777216 + b1 * 65536 + b2 * 256 + b3) :: bytesToWords rest
  | _ => []

/-- Cut the word sequence into 16-word blocks.  The first argument is fuel;
it is always called with fuel at least the number of blocks, so the fuel
never runs out on the padded inputs this file feeds it. -/
def chunk16 : Nat → List Nat → List (List Nat)
  | 0, _ => []
  | _ + 1, [] => []
  | n + 1, w :: ws => (w :: ws).take 16 :: chunk16 n ((w :: ws).drop 16)

/-- The four big-endian bytes of a 32-bit word. -/
def wordBE (w : Nat) : List Nat :=
  [w / 16777216 % 256, w / 65536 % 256, w / 256 % 256, w % 256]

/-- The 32-byte SHA-256 digest of a byte sequence. -/
def sha256Digest (msg : List Nat) : List Nat :=
  let ws := bytesToWords (padMsg msg)
  let blocks := chunk16 ws.length ws
  let h := blocks.foldl compressBlock sha256Init
  wordBE h.h0 ++ wordBE h.h1 ++ wordBE h.h2 ++ wordBE h.h3 ++
  wordBE h.h4 ++ wordBE h.h5 ++ wordBE h.h6 ++ wordBE h.h7

/-- One lowercase hexadecimal digit. -/
def hexDigit (n : Nat) : Char :=
  if n < 10 then Char.ofNat (48 + n) else Char.ofNat (87 + n)

/-- Two lowercase hex digits per byte, as printed by the Rust lowercase-hex
formatter on a SHA-256 digest. -/
def bytesToHex : List Nat → List Char
  | [] => []
  | b :: bs => hexDigit (b / 16) :: hexDigit (b % 16) :: bytesToHex bs

/-- Embedding of `calculate_checksum` (migrations.rs:115-120): the lowercase hex encoding
of the SHA-256 digest of the script's UTF-8 bytes. -/
def calculate_checksum (sql : String) : String :=
  String.mk (bytesToHex (sha256Digest (strBytes sql)))

/-- A lowercase hexadecimal digit character. -/
def isLowerHexDigit (c : Char) : Bool :=
  if ('0' ≤ c ∧ c ≤ '9') ∨ ('a' ≤ c ∧ c ≤ 'f') then true else false

/-! Section: Statement cleaning inside `apply_migration` (migrations.rs:74-87)

Before execution each statement has its leading blank and `--`-comment lines
stripped: `statement.lines().skip_while(..).collect::<Vec<_>>().join("\n")`,
then `str::trim`.  Rust `str::lines` splits inclusively at `'\n'` and strips
one `'\r'` before a stripped `'\n'` (a final line without a newline keeps a
trailing `'\r'`). -/

/-- Split at newlines, each segment keeping its terminating `'\n'`. -/
def splitInclNl : List Char → List (List Char)
  | [] => []
  | c :: cs =>
    if c = '\n' then ['\n'] :: splitInclNl cs
    else
      match splitInclNl cs with
      | [] => [[c]]
      | l :: ls => (c :: l) :: ls

/-- Strip the terminator of one line: a trailing `'\n'`, and a `'\r'` just
before it. -/
def stripLineEnd (l : List Char) : List Char :=
  if l.getLast? = some '\n' then
    let s := l.dropLast
    if s.getLast? = some '\r' then s.dropLast else s
  else l

/-- Model of Rust `str::lines`. -/
def rustLines (cs : List Char) : List (List Char) :=
  (splitInclNl cs).map stripLineEnd

/-- A line skipped by the comment stripper: blank after trim, or starting
with `--` after trim. -/
def isSkippableLine (line : List Char) : Bool :=
  (rustTrim line).isEmpty || ['-', '-'].isPrefixOf (rustTrim line)

/-- Strip leading blank/comment lines from a statement and rejoin with
`'\n'` (migrations.rs:75-79). -/
def clean_statement (stmt : String) : List Char :=
  List.intercalate ['\n'] ((rustLines stmt.data).dropWhile isSkippableLine)

/-! Section: Database model

The runner executes against PostgreSQL through sqlx.  The visible database
state is modelled as the rows of the `migrations` tracking table plus a log
of every successfully executed SQL statement.  A `DbOracle` says which
database calls succeed, standing for the responses of the external server.
A sqlx transaction accumulates changes that become visible only on commit;
dropping an uncommitted transaction (every early-error path below) rolls it
back, so an `Except.error` result always leaves the caller's database state
exactly as it was. -/

/-- Embedding of the `Migration` struct (migrations.rs:10-16). -/
structure Migration where
  id : String
  description : String
  up_sql : String
  down_sql : Option String
  deriving Repr, DecidableEq

/-- One row of the `migrations` tracking table (`applied_at` is filled by
the database and plays no role in the runner's logic). -/
structure AppliedRow where
  id : String
  description : String
  checksum : String
  deriving Repr, DecidableEq

/-- The modelled database state. -/
structure DB where
  rows : List AppliedRow
  ops : List String
  deriving Repr, DecidableEq

/-- Which database calls succeed: statement execution, the tracking-row
INSERT, the tracking-row DELETE (both keyed by migration id) and commit. -/
structure DbOracle where
  execOk : String → Bool
  insertOk : String → Bool
  deleteOk : String → Bool
  commitOk : String → Bool

/-- Embedding of `get_applied_migrations` (migrations.rs:105-112): the ids of the rows of
the tracking table, in insertion (= `applied_at`) order. -/
def get_applied_migrations (db : DB) : List String :=
  db.rows.map (fun r => r.id)

/-- The statement loop of `apply_migration` (migrations.rs:73-88): clean,
trim, skip empty, execute inside the transaction.  On a statement failure
the error carries the first 80 characters of the statement, as in the Rust
`with_context` message (the Rust slice is byte-based; this differs only for
non-ASCII statements longer than 80). -/
def applyExec (o : DbOracle) : DB → List String → Except String DB
  | tx, [] => .ok tx
  | tx, stmt :: rest =>
    let trimmed := rustTrim (clean_statement stmt)
    if trimmed.isEmpty then applyExec o tx rest
    else if o.execOk (String.mk trimmed) then
      applyExec o { tx with ops := tx.ops ++ [String.mk trimmed] } rest
    else .error ("SQL error: " ++ String.mk (trimmed.take 80) ++ "...")

/-- Embedding of `apply_migration` (migrations.rs:69-102): one transaction executing every
statement of the up-script, then inserting the tracking row, then committing.
`Except.ok` carries the committed state; `Except.error` means the transaction
was rolled back and the database is unchanged. -/
def apply_migration (o : DbOracle) (db : DB) (m : Migration) : Except String DB :=
  match applyExec o db (split_sql_statements m.up_sql) with
  | .error e => .error e
  | .ok tx =>
    if o.insertOk m.id then
      let tx2 := { tx with
        rows := tx.rows ++ [⟨m.id, m.description, calculate_checksum m.up_sql⟩] }
      if o.commitOk m.id then .ok tx2 else .error ("commit failed")
    else .error ("insert failed")

/-- The loop of `run_all_migrations` (migrations.rs:49-57): skip migrations
whose id is in the applied set read at the start of the run; apply the rest
in registry order; on the first failure stop, wrapping the error with the
failing migration's id, leaving the database at the state reached so far.
The triple returned is (Rust return value, database state, the internal
`applied_count` counter). -/
def runLoop (o : DbOracle) (appliedIds : List String) :
    DB → Nat → List Migration → Except String Unit × DB × Nat
  | db, count, [] => (.ok (), db, count)
  | db, count, m :: rest =>
    if m.id ∈ appliedIds then runLoop o appliedIds db count rest
    else
      match apply_migration o db m with
      | .ok db' => runLoop o appliedIds db' (count + 1) rest
      | .error e => (.error ("Failed to apply migration " ++ m.id ++ ": " ++ e), db, count)

/-- Body of `run_all_migrations` for an explicit registry: read the applied set once,
then run the loop.  The Rust function always instantiates the registry with
`get_all_migrations()`. -/
def run_all_migrations_with (o : DbOracle) (registry : List Migration) (db : DB) :
    Except String Unit × DB × Nat :=
  runLoop o (get_applied_migrations db) db 0 registry

/-- Embedding of `get_all_migrations` (migrations.rs:160-306): the fixed registry of
the program, one migration holding the full v1 schema. -/
def get_all_migrations : List Migration :=
  [{ id := "v1_initial_schema",
     description := "Complete initial schema for Feedbacker",
     up_sql := "
-- Enum types
CREATE TYPE feedback_status AS ENUM (\x27pending\x27, \x27processing\x27, \x27generating_changes\x27, \x27creating_pull_request\x27, \x27completed\x27, \x27failed\x27, \x27paused\x27);
CREATE TYPE user_role AS ENUM (\x27user\x27, \x27admin\x27, \x27service\x27);
CREATE TYPE notification_type AS ENUM (\x27feedback_completed\x27, \x27feedback_failed\x27, \x27pull_request_created\x27, \x27system_update\x27, \x27warning\x27);

-- Users
CREATE TABLE users (
    id UUID PRIMARY KEY DEFAULT gen_random_uuid(),
    email VARCHAR(255) UNIQUE NOT NULL,
    name VARCHAR(255) NOT NULL,
    github_username VARCHAR(255) UNIQUE,
    password_hash VARCHAR(255) NOT NULL,
    email_verified BOOLEAN NOT NULL DEFAULT FALSE,
    role user_role NOT NULL DEFAULT \x27user\x27,
    is_active BOOLEAN NOT NULL DEFAULT TRUE,
    created_at TIMESTAMPTZ NOT NULL DEFAULT NOW(),
    updated_at TIMESTAMPTZ NOT NULL DEFAULT NOW(),
    last_login_at TIMESTAMPTZ
);
CREATE INDEX idx_users_email ON users(email);
CREATE INDEX idx_users_github_username ON users(github_username);

-- User sessions
CREATE TABLE user_sessions (
    id UUID PRIMARY KEY DEFAULT gen_random_uuid(),
    user_id UUID NOT NULL REFERENCES users(id) ON DELETE CASCADE,
    token_hash VARCHAR(255) NOT NULL,
    ip_address INET,
    user_agent TEXT,
    created_at TIMESTAMPTZ NOT NULL DEFAULT NOW(),
    expires_at TIMESTAMPTZ NOT NULL,
    last_used_at TIMESTAMPTZ NOT NULL DEFAULT NOW()
);
CREATE INDEX idx_user_sessions_user_id ON user_sessions(user_id);
CREATE INDEX idx_user_sessions_expires_at ON user_sessions(expires_at);

-- Projects
CREATE TABLE projects (
    id UUID PRIMARY KEY DEFAULT gen_random_uuid(),
    owner_id UUID NOT NULL REFERENCES users(id) ON DELETE CASCADE,
    repository VARCHAR(255) NOT NULL,
    description TEXT,
    default_llm_provider VARCHAR(50),
    system_message TEXT,
    config JSONB,
    is_active BOOLEAN NOT NULL DEFAULT TRUE,
    created_at TIMESTAMPTZ NOT NULL DEFAULT NOW(),
    updated_at TIMESTAMPTZ NOT NULL DEFAULT NOW(),
    last_activity_at TIMESTAMPTZ,
    UNIQUE(owner_id, repository)
);
CREATE INDEX idx_projects_owner_id ON projects(owner_id);
CREATE INDEX idx_projects_repository ON projects(repository);

-- Feedback
CREATE TABLE feedback (
    id UUID PRIMARY KEY DEFAULT gen_random_uuid(),
    user_id UUID REFERENCES users(id) ON DELETE SET NULL,
    repository VARCHAR(255) NOT NULL,
    content TEXT NOT NULL,
    status feedback_status NOT NULL DEFAULT \x27pending\x27,
    branch_name VARCHAR(255),
    pull_request_url TEXT,
    llm_provider VARCHAR(50),
    metadata JSONB,
    error_message TEXT,
    created_at TIMESTAMPTZ NOT NULL DEFAULT NOW(),
    updated_at TIMESTAMPTZ NOT NULL DEFAULT NOW(),
    completed_at TIMESTAMPTZ
);
CREATE INDEX idx_feedback_repository ON feedback(repository);
CREATE INDEX idx_feedback_status ON feedback(status);
CREATE INDEX idx_feedback_created_at ON feedback(created_at);

-- Rate limits
CREATE TABLE rate_limits (
    id VARCHAR(255) PRIMARY KEY,
    limit_type VARCHAR(50) NOT NULL,
    request_count INTEGER NOT NULL DEFAULT 0,
    window_start TIMESTAMPTZ NOT NULL DEFAULT NOW(),
    last_request TIMESTAMPTZ NOT NULL DEFAULT NOW()
);

-- Notifications
CREATE TABLE notifications (
    id UUID PRIMARY KEY DEFAULT gen_random_uuid(),
    user_id UUID NOT NULL REFERENCES users(id) ON DELETE CASCADE,
    notification_type notification_type NOT NULL,
    title VARCHAR(255) NOT NULL,
    content TEXT NOT NULL,
    related_id UUID,
    is_read BOOLEAN NOT NULL DEFAULT FALSE,
    created_at TIMESTAMPTZ NOT NULL DEFAULT NOW(),
    read_at TIMESTAMPTZ
);
CREATE INDEX idx_notifications_user_id ON notifications(user_id);

-- Webhooks
CREATE TABLE webhooks (
    id UUID PRIMARY KEY DEFAULT gen_random_uuid(),
    project_id UUID NOT NULL REFERENCES projects(id) ON DELETE CASCADE,
    event_type VARCHAR(100) NOT NULL,
    payload JSONB NOT NULL,
    processed BOOLEAN NOT NULL DEFAULT FALSE,
    created_at TIMESTAMPTZ NOT NULL DEFAULT NOW(),
    processed_at TIMESTAMPTZ
);
CREATE INDEX idx_webhooks_project_id ON webhooks(project_id);

-- Background jobs
CREATE TABLE background_jobs (
    id UUID PRIMARY KEY DEFAULT gen_random_uuid(),
    job_type VARCHAR(100) NOT NULL,
    payload JSONB NOT NULL,
    status VARCHAR(50) NOT NULL DEFAULT \x27pending\x27,
    retries INTEGER NOT NULL DEFAULT 0,
    max_retries INTEGER NOT NULL DEFAULT 3,
    error_message TEXT,
    scheduled_at TIMESTAMPTZ NOT NULL DEFAULT NOW(),
    started_at TIMESTAMPTZ,
    completed_at TIMESTAMPTZ,
    created_at TIMESTAMPTZ NOT NULL DEFAULT NOW()
);
CREATE INDEX idx_background_jobs_status ON background_jobs(status);

-- Auto-update trigger
CREATE OR REPLACE FUNCTION update_updated_at_column() RETURNS TRIGGER AS $$
BEGIN
    NEW.updated_at = NOW();
    RETURN NEW;
END;
$$ language \x27plpgsql\x27;

CREATE TRIGGER update_users_updated_at BEFORE UPDATE ON users FOR EACH ROW EXECUTE FUNCTION update_updated_at_column();
CREATE TRIGGER update_projects_updated_at BEFORE UPDATE ON projects FOR EACH ROW EXECUTE FUNCTION update_updated_at_column();
CREATE TRIGGER update_feedback_updated_at BEFORE UPDATE ON feedback FOR EACH ROW EXECUTE FUNCTION update_updated_at_column();
            ",
     down_sql := some ("DROP SCHEMA public CASCADE; CREATE SCHEMA public;") }]

/-- Embedding of `run_all_migrations` (migrations.rs:41-66). -/
def run_all_migrations (o : DbOracle) (db : DB) : Except String Unit × DB × Nat :=
  run_all_migrations_with o get_all_migrations db

/-- The statement loop of `rollback_migration` (migrations.rs:318-323):
trim, skip empty, execute inside the transaction. -/
def rollbackExec (o : DbOracle) : DB → List String → Except String DB
  | tx, [] => .ok tx
  | tx, stmt :: rest =>
    let trimmed := rustTrim stmt.data
    if trimmed.isEmpty then rollbackExec o tx rest
    else if o.execOk (String.mk trimmed) then
      rollbackExec o { tx with ops := tx.ops ++ [String.mk trimmed] } rest
    else .error ("statement failed")

/-- Body of `rollback_migration` for an explicit registry (migrations.rs:309-335):
look the id up; absent ids are an error; a present id without a down-script
skips the whole `if let Some(down_sql)` block and returns `Ok(())` with the
database untouched; otherwise one transaction executes the down-script
statements, deletes the tracking row, and commits. -/
def rollback_migration_with (o : DbOracle) (registry : List Migration) (db : DB)
    (migration_id : String) : Except String DB :=
  match registry.find? (fun m => m.id = migration_id) with
  | none => .error ("Migration not found")
  | some m =>
    match m.down_sql with
    | none => .ok db
    | some down_sql =>
      match rollbackExec o db (split_sql_statements down_sql) with
      | .error e => .error e
      | .ok tx =>
        if o.deleteOk migration_id then
          let tx2 := { tx with rows := tx.rows.filter (fun r => ¬ r.id = migration_id) }
          if o.commitOk migration_id then .ok tx2 else .error ("commit failed")
        else .error ("delete failed")

/-- Embedding of `rollback_migration` (migrations.rs:309-335). -/
def rollback_migration (o : DbOracle) (db : DB) (migration_id : String) : Except String DB :=
  rollback_migration_with o get_all_migrations db migration_id


/-! Section: Helper lemmas about the splitter -/

/-- A character other than `'$'` never toggles the dollar-quote flag. -/
theorem nextDollarQuote_of_ne (s : SplitState) (ch : Char) (h : ¬ ch = '$') :
    nextDollarQuote s ch = s.in_dollar_quote := by
  unfold nextDollarQuote
  rw [if_neg]
  rintro ⟨-, h2⟩
  exact h h2

/-- One scanner step emits a statement exactly when the character is a
semicolon seen at depth zero outside a dollar quote; the emitted statement is
the accumulator extended by that semicolon, appended after the statements
already emitted. -/
theorem splitStep_statements_eq (s : SplitState) (ch : Char) :
    (splitStep s ch).statements =
      if ch = ';' ∧ s.paren_depth = 0 ∧ s.in_dollar_quote = false
      then s.statements ++ [s.current ++ [ch]] else s.statements := by
  simp only [splitStep]
  split_ifs with h1 h2 h3 h4 h5 <;>
    simp_all [nextDollarQuote_of_ne s ';' (by decide)]

/-- One scanner step resets the accumulator exactly when it emits, and
otherwise extends it by the character read. -/
theorem splitStep_current_eq (s : SplitState) (ch : Char) :
    (splitStep s ch).current =
      if ch = ';' ∧ s.paren_depth = 0 ∧ s.in_dollar_quote = false
      then [] else s.current ++ [ch] := by
  simp only [splitStep]
  split_ifs with h1 h2 h3 h4 h5 <;>
    simp_all [nextDollarQuote_of_ne s ';' (by decide)]

/-- How one scanner step updates the depth counter: untouched inside a
dollar quote, incremented on `'('`, decremented with `i32` saturation on
`')'`, untouched otherwise. -/
theorem splitStep_depth_eq (s : SplitState) (ch : Char) :
    (splitStep s ch).paren_depth =
      if nextDollarQuote s ch = true then s.paren_depth
      else if ch = '(' then s.paren_depth + 1
      else if ch = ')' then i32SaturatingSub1 s.paren_depth
      else s.paren_depth := by
  simp only [splitStep]
  split_ifs <;> simp_all

/-- Each step lowers the depth counter by at most one. -/
theorem splitStep_depth_ge (s : SplitState) (ch : Char) :
    s.paren_depth - 1 ≤ (splitStep s ch).paren_depth := by
  rw [splitStep_depth_eq]
  unfold i32SaturatingSub1
  split_ifs <;> omega

/-- Statements already emitted are never dropped or reordered: scanning only
appends further statements. -/
theorem splitFold_statements_mono (cs : List Char) (s : SplitState) :
    ∃ t, (splitFold s cs).statements = s.statements ++ t := by
  induction cs generalizing s with
  | nil => exact ⟨[], by simp [splitFold]⟩
  | cons ch cs ih =>
    obtain ⟨t, ht⟩ := ih (splitStep s ch)
    have hstep := splitStep_statements_eq s ch
    rw [show splitFold s (ch :: cs) = splitFold (splitStep s ch) cs from rfl, ht, hstep]
    split_ifs
    · exact ⟨[s.current ++ [ch]] ++ t, by simp⟩
    · exact ⟨t, rfl⟩

/-- The depth counter never falls by more than the number of characters
scanned. -/
theorem splitFold_depth_ge (cs : List Char) (s : SplitState) :
    s.paren_depth - cs.length ≤ (splitFold s cs).paren_depth := by
  induction cs generalizing s with
  | nil => simp [splitFold]
  | cons ch cs ih =>
    have h1 := splitStep_depth_ge s ch
    have h2 := ih (splitStep s ch)
    rw [show splitFold s (ch :: cs) = splitFold (splitStep s ch) cs from rfl]
    simp only [List.length_cons]
    push_cast at h2 ⊢
    omega

/-- Scanning preserves all input characters: the emitted statements followed
by the live accumulator spell out exactly the text consumed so far. -/
theorem splitFold_join (cs : List Char) (s : SplitState) :
    ((splitFold s cs).statements).flatten ++ (splitFold s cs).current =
      s.statements.flatten ++ s.current ++ cs := by
  induction cs generalizing s with
  | nil => simp [splitFold]
  | cons ch cs ih =>
    rw [show splitFold s (ch :: cs) = splitFold (splitStep s ch) cs from rfl, ih]
    rw [splitStep_statements_eq, splitStep_current_eq]
    split_ifs
    · simp
    · simp

/-! Section: Claim C1: emission discipline of the splitter -/

/-- Claim C1: for every input, the splitter emits a statement exactly at each
semicolon read while the depth counter is zero and the scanner is outside a
dollar-quoted block; the emitted statement is the text accumulated since the
previous emission including that semicolon (after which the accumulator
resets), and scanning only ever appends statements, so emissions appear in
source order. -/
theorem c1_statement_emission :
    (∀ (s : SplitState) (ch : Char),
      (splitStep s ch).statements =
        (if ch = ';' ∧ s.paren_depth = 0 ∧ s.in_dollar_quote = false
         then s.statements ++ [s.current ++ [ch]] else s.statements) ∧
      (splitStep s ch).current =
        (if ch = ';' ∧ s.paren_depth = 0 ∧ s.in_dollar_quote = false
         then [] else s.current ++ [ch])) ∧
    (∀ (s : SplitState) (cs : List Char),
      ∃ t, (splitFold s cs).statements = s.statements ++ t) :=
  ⟨fun s ch => ⟨splitStep_statements_eq s ch, splitStep_current_eq s ch⟩,
   fun s cs => splitFold_statements_mono cs s⟩

/-! Section: Claim C4: the parenthesis-depth counter -/

/-- Claim C4 counterexample: the claim says the depth counter is non-negative
throughout the scan, with a `')'` at depth zero leaving it at zero.  On the
code, `saturating_sub` acts on an `i32`, whose saturation point is `i32::MIN`,
so scanning the one-character input `")"` leaves the counter at `-1`. -/
theorem c4_counterexample_negative_depth :
    (splitFold initSplitState [')']).paren_depth = -1 ∧
    ¬ (0 : Int) ≤ (splitFold initSplitState [')']).paren_depth := by
  decide

/-- Claim C4 (amended): the depth counter is incremented on `'('` and
decremented on `')'` with `i32` saturating subtraction — whose floor is
`i32::MIN`, not zero, so a `')'` seen at depth zero takes the counter to
`-1`; it is updated only while the scanner is not inside a dollar-quoted
block, and over a whole scan it never falls below minus the input length. -/
theorem c4_depth_update_characterization :
    (∀ (s : SplitState) (ch : Char),
      (splitStep s ch).paren_depth =
        if nextDollarQuote s ch = true then s.paren_depth
        else if ch = '(' then s.paren_depth + 1
        else if ch = ')' then i32SaturatingSub1 s.paren_depth
        else s.paren_depth) ∧
    (∀ cs : List Char, -(cs.length : Int) ≤ (splitFold initSplitState cs).paren_depth) :=
  ⟨fun s ch => splitStep_depth_eq s ch,
   fun cs => by
    have h := splitFold_depth_ge cs initSplitState
    have h0 : initSplitState.paren_depth = 0 := rfl
    omega⟩

/-! Section: Claim C6: the dollar-quoted trigger function stays one statement -/

/-- Claim C6: the spec's `CREATE FUNCTION ... $$ ... $$ LANGUAGE plpgsql;`
script is returned as exactly one statement (the whole script); the
semicolons inside the dollar-quoted body do not split it. -/
theorem c6_dollar_quoted_single_statement :
    split_sql_statements
        ("CREATE FUNCTION f() RETURNS trigger AS $$ BEGIN NEW.x := 1; RETURN NEW; END; $$ LANGUAGE plpgsql;") =
      ["CREATE FUNCTION f() RETURNS trigger AS $$ BEGIN NEW.x := 1; RETURN NEW; END; $$ LANGUAGE plpgsql;"] := by
  rfl

/-! Section: Claim C10: the splitter loses and reorders no characters -/

/-- Claim C10: concatenating the emitted statements in order reconstructs the
input text, except that the trailing accumulator segment after the last
emitted terminator is dropped exactly when it is all whitespace (when it is
not, it is emitted as the final statement, and nothing is dropped). -/
theorem c10_concat_reconstructs_input (sql : String) :
    (splitChars sql.data).flatten ++
      (if rustTrim (splitFold initSplitState sql.data).current = []
       then (splitFold initSplitState sql.data).current else []) = sql.data := by
  have h := splitFold_join sql.data initSplitState
  rw [show initSplitState.statements = [] from rfl,
      show initSplitState.current = [] from rfl] at h
  simp only [List.flatten_nil, List.nil_append] at h
  simp only [splitChars]
  split_ifs with hw
  · exact h
  · simpa using h

/-! Section: Claim C5: counting statements against depth-zero semicolons -/

/-- The semicolon counter ignores its accumulated count: starting it at `c`
just shifts the result by `c`. -/
theorem countStep_shift (d : Int) (c : Nat) (ch : Char) :
    countStep ⟨d, c⟩ ch =
      ⟨(countStep ⟨d, 0⟩ ch).depth, c + (countStep ⟨d, 0⟩ ch).count⟩ := by
  unfold countStep
  split_ifs <;> simp

/-- The semicolon-counting fold, shifted by an initial count. -/
theorem countFold_shift (cs : List Char) (d : Int) (c : Nat) :
    List.foldl countStep ⟨d, c⟩ cs =
      ⟨(List.foldl countStep ⟨d, 0⟩ cs).depth,
       c + (List.foldl countStep ⟨d, 0⟩ cs).count⟩ := by
  induction cs generalizing d c with
  | nil => simp
  | cons ch cs ih =>
    rw [List.foldl_cons, List.foldl_cons, countStep_shift]
    rw [ih _ (c + (countStep ⟨d, 0⟩ ch).count)]
    rw [ih ((countStep ⟨d, 0⟩ ch).depth) ((countStep ⟨d, 0⟩ ch).count)]
    simp [Nat.add_assoc]

/-- Weakening the previous-character context of `noDollarPair`. -/
theorem noDollarPair_none_of (p : Option Char) (cs : List Char)
    (h : noDollarPair p cs = true) : noDollarPair none cs = true := by
  cases cs with
  | nil => rfl
  | cons c cs =>
    unfold noDollarPair at h ⊢
    rw [if_neg (by rintro ⟨h1, -⟩; cases h1)]
    by_cases hp : p = some '$' ∧ c = '$'
    · rw [if_pos hp] at h
      cases h
    · rwa [if_neg hp] at h

/-- When the dollar-quote flag is off and the character does not complete a
`"$$"` pair, one splitter step and one counter step agree: same depth update,
flag stays off, and the statement count grows exactly when the counter
counts. -/
theorem splitStep_couple (s : SplitState) (ch : Char)
    (hdq : s.in_dollar_quote = false)
    (hcond : ¬ (s.current.getLast? = some '$' ∧ ch = '$')) :
    (splitStep s ch).in_dollar_quote = false ∧
    (splitStep s ch).paren_depth = (countStep ⟨s.paren_depth, 0⟩ ch).depth ∧
    (splitStep s ch).statements.length =
      s.statements.length + (countStep ⟨s.paren_depth, 0⟩ ch).count := by
  have hnt : nextDollarQuote s ch = false := by
    unfold nextDollarQuote
    rw [if_neg hcond]
    exact hdq
  simp only [splitStep, countStep, hnt]
  split_ifs <;> simp_all

/-- Under `noDollarPair`, the number of statements the scan emits equals the
number of semicolons the counter sees at depth zero. -/
theorem splitFold_count (cs : List Char) (s : SplitState)
    (hdq : s.in_dollar_quote = false)
    (hnd : noDollarPair s.current.getLast? cs = true) :
    (splitFold s cs).statements.length =
      s.statements.length + (List.foldl countStep ⟨s.paren_depth, 0⟩ cs).count := by
  induction cs generalizing s with
  | nil => simp [splitFold]
  | cons ch cs ih =>
    unfold noDollarPair at hnd
    by_cases hcond : s.current.getLast? = some '$' ∧ ch = '$'
    · rw [if_pos hcond] at hnd
      cases hnd
    · rw [if_neg hcond] at hnd
      obtain ⟨hdq', hdep, hlen⟩ := splitStep_couple s ch hdq hcond
      have hnd' : noDollarPair (splitStep s ch).current.getLast? cs = true := by
        rw [splitStep_current_eq]
        split_ifs
        · exact noDollarPair_none_of _ _ hnd
        · rwa [List.getLast?_concat]
      have ihs := ih (splitStep s ch) hdq' hnd'
      obtain ⟨D, K, hDK⟩ : ∃ D K, countStep ⟨s.paren_depth, 0⟩ ch = ⟨D, K⟩ :=
        ⟨_, _, rfl⟩
      rw [hDK] at hdep hlen
      dsimp only at hdep hlen
      rw [show splitFold s (ch :: cs) = splitFold (splitStep s ch) cs from rfl, ihs]
      rw [show List.foldl countStep ⟨s.paren_depth, 0⟩ (ch :: cs) =
            List.foldl countStep (countStep ⟨s.paren_depth, 0⟩ ch) cs from rfl, hDK]
      rw [countFold_shift cs D K]
      dsimp only
      rw [hdep, hlen]
      omega

/-- Claim C5 counterexample: the claim equates emitted statements with
depth-zero semicolons for every dollar-quote-free text, but the input `"a"`
has no semicolon at all and still yields one emitted statement (the trailing
non-whitespace accumulator is pushed as a final statement). -/
theorem c5_counterexample_trailing_statement :
    noDollarPair none ("a".data) = true ∧
    (split_sql_statements ("a")).length ≠ countSemisDepthZero ("a".data) := by
  decide

/-- Claim C5 (amended): for every SQL text without dollar-quoting, the number
of emitted statements equals the number of semicolons occurring at the
scanner's parenthesis depth zero (the `i32` counter, which unmatched `')'`
can drive negative), plus one when a non-whitespace accumulator segment
trails the last such semicolon. -/
theorem c5_statement_count_formula (sql : String)
    (h : noDollarPair none sql.data = true) :
    (split_sql_statements sql).length =
      countSemisDepthZero sql.data +
      (if rustTrim (splitFold initSplitState sql.data).current = [] then 0 else 1) := by
  have hc := splitFold_count sql.data initSplitState rfl
    (by rw [show initSplitState.current.getLast? = none from rfl]; exact h)
  rw [show initSplitState.statements.length = 0 from rfl,
      show initSplitState.paren_depth = (0 : Int) from rfl] at hc
  unfold split_sql_statements
  rw [List.length_map]
  simp only [splitChars]
  unfold countSemisDepthZero
  split_ifs with hw
  · simpa using hc
  · simpa using hc

/-- Claim C5 witness: on `"a;b"` the formula gives one depth-zero semicolon
plus one trailing non-whitespace statement, and the splitter indeed returns
two statements. -/
theorem c5_statement_count_formula_witness :
    noDollarPair none ("a;b".data) = true ∧
    (split_sql_statements ("a;b")).length =
      countSemisDepthZero ("a;b".data) +
      (if rustTrim (splitFold initSplitState ("a;b".data)).current = [] then 0 else 1) :=
  ⟨by decide, c5_statement_count_formula ("a;b") (by decide)⟩

/-! Section: Claim C9: the checksum is a deterministic 64-character lowercase hex -/

/-- Each big-endian byte of a word is reduced modulo 256. -/
theorem wordBE_lt (w : Nat) : ∀ b ∈ wordBE w, b < 256 := by
  intro b hb
  simp only [wordBE, List.mem_cons, List.not_mem_nil, or_false] at hb
  rcases hb with h | h | h | h <;> subst h <;> exact Nat.mod_lt _ (by norm_num)

/-- The SHA-256 digest always consists of 32 bytes. -/
theorem sha256Digest_length (msg : List Nat) : (sha256Digest msg).length = 32 := by
  simp [sha256Digest, wordBE]

/-- Every digest byte is below 256. -/
theorem sha256Digest_lt (msg : List Nat) : ∀ b ∈ sha256Digest msg, b < 256 := by
  intro b hb
  simp only [sha256Digest, List.mem_append] at hb
  rcases hb with ((((((h | h) | h) | h) | h) | h) | h) | h <;> exact wordBE_lt _ b h

/-- Function `hexDigit` maps the sixteen digit values to lowercase hex characters. -/
theorem hexDigit_lower : ∀ n < 16, isLowerHexDigit (hexDigit n) = true := by
  decide

/-- The hex encoding writes two characters per byte. -/
theorem bytesToHex_length (bs : List Nat) : (bytesToHex bs).length = 2 * bs.length := by
  induction bs with
  | nil => rfl
  | cons b bs ih =>
    simp only [bytesToHex, List.length_cons, ih]
    omega

/-- The hex encoding of in-range bytes uses only lowercase hex characters. -/
theorem bytesToHex_lower (bs : List Nat) (h : ∀ b ∈ bs, b < 256) :
    (bytesToHex bs).all isLowerHexDigit = true := by
  induction bs with
  | nil => rfl
  | cons b bs ih =>
    have hb : b < 256 := h b (by simp)
    have h1 : b / 16 < 16 := by omega
    have h2 : b % 16 < 16 := Nat.mod_lt _ (by norm_num)
    simp only [bytesToHex, List.all_cons, Bool.and_eq_true]
    exact ⟨hexDigit_lower _ h1, hexDigit_lower _ h2,
      ih (fun x hx => h x (by simp [hx]))⟩

/-- Claim C9: `calculate_checksum` is a pure function — hashing the same text
twice yields identical outputs — and for every input (the empty string
included) the output is exactly 64 characters, all of them lowercase
hexadecimal digits. -/
theorem c9_checksum_deterministic_hex64 (sql : String) :
    calculate_checksum sql = calculate_checksum sql ∧
    (calculate_checksum sql).length = 64 ∧
    (calculate_checksum sql).data.all isLowerHexDigit = true := by
  refine ⟨rfl, ?_, ?_⟩
  · show (bytesToHex (sha256Digest (strBytes sql))).length = 64
    rw [bytesToHex_length, sha256Digest_length]
  · show (bytesToHex (sha256Digest (strBytes sql))).all isLowerHexDigit = true
    exact bytesToHex_lower _ (sha256Digest_lt _)

/-- The embedded SHA-256 agrees with the standard digest of the empty
string, validating the constants and padding of the embedding. -/
theorem calculate_checksum_empty_vector :
    calculate_checksum ("") =
      "e3b0c44298fc1c149afbf4c8996fb92427ae41e4649b934ca495991b7852b855" := by
  rfl

/-- The embedded SHA-256 agrees with the standard digest of `"abc"`. -/
theorem calculate_checksum_abc_vector :
    calculate_checksum ("abc") =
      "ba7816bf8f01cfea414140de5dae2223b00361a396177a9cb410ff61f20015ad" := by
  rfl

/-! Section: Helper lemmas about the migration runner -/

/-- The statement loop of `apply_migration` only executes SQL; it never
touches the tracking rows. -/
theorem applyExec_rows (o : DbOracle) (ss : List String) (tx tx' : DB)
    (h : applyExec o tx ss = .ok tx') : tx'.rows = tx.rows := by
  induction ss generalizing tx with
  | nil =>
    simp only [applyExec] at h
    cases h
    rfl
  | cons stmt rest ih =>
    simp only [applyExec] at h
    split_ifs at h
    all_goals first
      | cases h
      | (have h2 := ih _ h; simpa using h2)

/-- A successful `apply_migration` commits exactly one new tracking row, for
the migration just applied, carrying its checksum. -/
theorem apply_migration_ok_rows (o : DbOracle) (db : DB) (m : Migration) (db' : DB)
    (h : apply_migration o db m = .ok db') :
    db'.rows = db.rows ++ [⟨m.id, m.description, calculate_checksum m.up_sql⟩] := by
  unfold apply_migration at h
  cases happly : applyExec o db (split_sql_statements m.up_sql) with
  | error e => rw [happly] at h; cases h
  | ok tx =>
    rw [happly] at h
    split_ifs at h
    all_goals cases h
    all_goals simpa using applyExec_rows o _ db tx happly

/-- A successful run only appends tracking rows, and afterwards every
registry migration is either in the applied set read at the start or has a
tracking row in the final database. -/
theorem runLoop_ok_mono (o : DbOracle) (ap : List String) (ms : List Migration)
    (db db' : DB) (c c' : Nat)
    (h : runLoop o ap db c ms = (.ok (), db', c')) :
    (∃ t, db'.rows = db.rows ++ t) ∧
    (∀ m ∈ ms, m.id ∈ ap ∨ m.id ∈ db'.rows.map (fun r => r.id)) := by
  induction ms generalizing db c with
  | nil =>
    simp only [runLoop, Prod.mk.injEq, true_and] at h
    obtain ⟨h1, -⟩ := h
    subst h1
    exact ⟨⟨[], by simp⟩, by simp⟩
  | cons m rest ih =>
    simp only [runLoop] at h
    split_ifs at h with hmem
    · obtain ⟨hmono, hall⟩ := ih db c h
      refine ⟨hmono, fun m' hm' => ?_⟩
      rcases List.mem_cons.mp hm' with rfl | hm'
      · exact Or.inl hmem
      · exact hall m' hm'
    · cases happ : apply_migration o db m with
      | error e => rw [happ] at h; cases h
      | ok db1 =>
        rw [happ] at h
        obtain ⟨⟨t, ht⟩, hall⟩ := ih db1 (c + 1) h
        have hrows := apply_migration_ok_rows o db m db1 happ
        refine ⟨⟨[⟨m.id, m.description, calculate_checksum m.up_sql⟩] ++ t, by
          rw [ht, hrows, List.append_assoc]⟩, fun m' hm' => ?_⟩
        rcases List.mem_cons.mp hm' with rfl | hm'
        · refine Or.inr ?_
          rw [ht, hrows]
          simp
        · exact hall m' hm'

/-- When every registry id is already in the applied set, the loop applies
nothing and succeeds with an unchanged database and an unchanged counter. -/
theorem runLoop_all_applied (o : DbOracle) (ap : List String) (ms : List Migration)
    (db : DB) (c : Nat) (h : ∀ m ∈ ms, m.id ∈ ap) :
    runLoop o ap db c ms = (.ok (), db, c) := by
  induction ms with
  | nil => rfl
  | cons m rest ih =>
    simp only [runLoop, if_pos (h m (List.mem_cons_self m rest))]
    exact ih (fun m' hm' => h m' (List.mem_cons_of_mem m hm'))

/-! Section: Claim C2: migrations apply atomically and a failure stops the run -/

/-- Claim C2: if applying a migration fails (a failing up-script statement or
a failing tracking-row insert both surface as `Except.error` from
`apply_migration`, whose transaction is then rolled back), the run returns
that error wrapped with the failing migration's id, the database is left
exactly as it was before the attempt — none of the migration's statements and
no tracking row are visible — and the result does not depend on the
migrations that follow, which are never attempted. -/
theorem c2_apply_failure_atomic (o : DbOracle) (ap : List String) (db : DB)
    (c : Nat) (m : Migration) (post : List Migration) (e : String)
    (hmem : ¬ m.id ∈ ap) (hfail : apply_migration o db m = .error e) :
    runLoop o ap db c (m :: post) =
      (.error ("Failed to apply migration " ++ m.id ++ ": " ++ e), db, c) := by
  simp only [runLoop, if_neg hmem, hfail]

/-- An oracle whose statement executions all fail. -/
def oFailExec : DbOracle :=
  ⟨fun _ => false, fun _ => true, fun _ => true, fun _ => true⟩

/-- An oracle for which every database call succeeds. -/
def oAllOk : DbOracle :=
  ⟨fun _ => true, fun _ => true, fun _ => true, fun _ => true⟩

/-- The empty database (no tracking rows, nothing executed). -/
def db0 : DB := ⟨[], []⟩

/-- Claim C2 witness: with a failing statement, the run on a two-migration
registry stops at the first migration, reports it, and leaves the empty
database untouched; the second migration is never attempted. -/
theorem c2_apply_failure_atomic_witness :
    ¬ ("m1" : String) ∈ ([] : List String) ∧
    runLoop oFailExec [] db0 0
        [⟨"m1", "first", "A;", none⟩, ⟨"m2", "second", "B;", none⟩] =
      (.error ("Failed to apply migration m1: SQL error: A;..."), db0, 0) :=
  ⟨by simp,
   c2_apply_failure_atomic oFailExec [] db0 0 ⟨"m1", "first", "A;", none⟩
     [⟨"m2", "second", "B;", none⟩] "SQL error: A;..." (by simp) (by rfl)⟩

/-! Section: Claim C3: a second run applies zero migrations -/

/-- Claim C3: migrations recorded in the tracking store are never
re-executed; consequently, if a run of the apply path succeeds, running it
again on the resulting database succeeds, changes nothing, and applies zero
migrations. -/
theorem c3_second_run_applies_zero (o : DbOracle) (registry : List Migration)
    (db db1 : DB) (n : Nat)
    (h : run_all_migrations_with o registry db = (.ok (), db1, n)) :
    run_all_migrations_with o registry db1 = (.ok (), db1, 0) := by
  unfold run_all_migrations_with at h ⊢
  obtain ⟨⟨t, ht⟩, hall⟩ := runLoop_ok_mono o _ registry db db1 0 n h
  apply runLoop_all_applied
  intro m hm
  rcases hall m hm with hin | hin
  · unfold get_applied_migrations at hin ⊢
    rw [ht, List.map_append]
    exact List.mem_append_left _ hin
  · exact hin

/-- A one-migration registry used for concrete runs. -/
def regOne : List Migration :=
  [⟨"m1", "create table t", "CREATE TABLE t (x INT);", some ("DROP TABLE t;")⟩]

/-- Claim C3 witness: a successful first run on the empty database followed
by a second run that succeeds with zero applied migrations. -/
theorem c3_second_run_applies_zero_witness :
    run_all_migrations_with oAllOk regOne db0 =
      (.ok (), (run_all_migrations_with oAllOk regOne db0).2.1,
       (run_all_migrations_with oAllOk regOne db0).2.2) ∧
    run_all_migrations_with oAllOk regOne
        ((run_all_migrations_with oAllOk regOne db0).2.1) =
      (.ok (), (run_all_migrations_with oAllOk regOne db0).2.1, 0) :=
  ⟨by rfl,
   c3_second_run_applies_zero oAllOk regOne db0
     ((run_all_migrations_with oAllOk regOne db0).2.1)
     ((run_all_migrations_with oAllOk regOne db0).2.2) (by rfl)⟩

/-! Section: Claim C7: what the runner returns on success -/

/-- Claim C7 counterexample: the Rust `run_all_migrations` returns
`Result<()>`; its success value is `Ok(())` no matter how many migrations
were applied.  Concretely, a first run that applies one migration and a
second run that applies zero both return exactly `.ok ()`, so the returned
value cannot be the count of newly applied migrations (which the function
only computes internally and logs).  The count below is the model's
observation of the internal `applied_count` variable, not part of the Rust
return value. -/
theorem c7_counterexample_returns_unit_not_count :
    (run_all_migrations_with oAllOk regOne db0).1 = .ok () ∧
    (run_all_migrations_with oAllOk regOne db0).2.2 = 1 ∧
    (run_all_migrations_with oAllOk regOne
        ((run_all_migrations_with oAllOk regOne db0).2.1)).1 = .ok () ∧
    (run_all_migrations_with oAllOk regOne
        ((run_all_migrations_with oAllOk regOne db0).2.1)).2.2 = 0 :=
  ⟨rfl, rfl, rfl, rfl⟩

/-- Claim C7 (amended): on success `run_all_migrations` returns `Ok(())` —
the count of newly applied migrations is computed and logged internally but
not returned — and "nothing pending" is a valid, non-error outcome: when
every registry migration already has a tracking row, the run returns
`Ok(())`, changes nothing, and its internal counter stays at zero. -/
theorem c7_zero_pending_success (o : DbOracle) (registry : List Migration)
    (db : DB) (h : ∀ m ∈ registry, m.id ∈ get_applied_migrations db) :
    run_all_migrations_with o registry db = (.ok (), db, 0) := by
  unfold run_all_migrations_with
  exact runLoop_all_applied o _ registry db 0 h

/-- A database on which the program's own registry is fully applied. -/
def dbV1Applied : DB :=
  ⟨[⟨"v1_initial_schema", "Complete initial schema for Feedbacker", "c"⟩], []⟩

/-- Claim C7 witness: on the program's actual registry, a run against a
database that already records `v1_initial_schema` succeeds as a non-error
with zero applied migrations. -/
theorem c7_zero_pending_success_witness :
    (∀ m ∈ get_all_migrations, m.id ∈ get_applied_migrations dbV1Applied) ∧
    run_all_migrations_with oAllOk get_all_migrations dbV1Applied =
      (.ok (), dbV1Applied, 0) :=
  ⟨by decide, c7_zero_pending_success oAllOk get_all_migrations dbV1Applied (by decide)⟩

/-! Section: Claim C8: rollback of a migration without a down-script -/

/-- Claim C8 counterexample: the claim says that for a registry migration
without a down-script, `rollback_migration` returns an error
(`NoDownScriptDefined`).  On the code, the `if let Some(down_sql)` block is
simply skipped and the function falls through to `Ok(())`: the concrete
rollback below returns success (with the database unchanged), not an
error. -/
theorem c8_counterexample_silent_ok :
    rollback_migration_with oAllOk [⟨"m1", "no down path", "A;", none⟩] db0 ("m1") =
      .ok db0 := by
  rfl

/-- Claim C8 (amended): for every migration id found in the registry whose
definition has no down-script, `rollback_migration` makes no database change
— but it does not surface an error: it silently succeeds with `Ok(())`. -/
theorem c8_no_down_script_silent_ok (o : DbOracle) (registry : List Migration)
    (db : DB) (mid : String) (m : Migration)
    (hfind : registry.find? (fun m' => m'.id = mid) = some m)
    (hnd : m.down_sql = none) :
    rollback_migration_with o registry db mid = .ok db := by
  unfold rollback_migration_with
  rw [hfind]
  dsimp only
  rw [hnd]

/-- Claim C8 witness: a concrete registry whose only migration lacks a
down-script; rolling it back returns success and leaves the database
untouched. -/
theorem c8_no_down_script_silent_ok_witness :
    (([⟨"m1", "no down path", "A;", none⟩] : List Migration).find?
        (fun m' => m'.id = "m1") = some ⟨"m1", "no down path", "A;", none⟩) ∧
    rollback_migration_with oFailExec [⟨"m1", "no down path", "A;", none⟩] db0 ("m1") =
      .ok db0 :=
  ⟨by rfl,
   c8_no_down_script_silent_ok oFailExec [⟨"m1", "no down path", "A;", none⟩] db0 ("m1")
     ⟨"m1", "no down path", "A;", none⟩ (by rfl) rfl⟩
